import Mathlib

/-!
Verification of the event classification and handler-dispatch core of the
juno-bot repository (a Towns-protocol bot).  The repository ships the
documentation of the core (`src/unnamed/part_000`, an AGENTS.md event-handler
reference), a README describing the quickstart bot, and the static slash
command list (`commands.ts`, embedded in `src/README.md`).  The dispatch
engine itself lives in the external `@towns-protocol/bot` package and is not
part of the repository sources, so the operational definitions below are
modelled from the specification, staying consistent with the behaviour the
repository documentation records.
-/

/-- Mention entry: a `{userId, displayName}` pair (spec section 3). -/
structure Mention where
  userId : String
  displayName : String
deriving DecidableEq

/-- Base payload embedded in every event (spec section 3; source lines 46-56):
`userId`, `spaceId`, `channelId`, `eventId`, `createdAt`. -/
structure BasePayload where
  userId : String
  spaceId : String
  channelId : String
  eventId : String
  createdAt : Nat
deriving DecidableEq

/-- Membership change kind (spec section 3). -/
inductive MembershipKind where
  | join : MembershipKind
  | leave : MembershipKind
deriving DecidableEq

/-- Tip payload fields (spec section 3; source lines 301-311). -/
structure TipContent where
  senderAddress : String
  receiverAddress : String
  amount : Nat
  currencyAddress : String
deriving DecidableEq

/-- Event: the tagged union of classified event variants (spec section 3). -/
inductive Event where
  | message (base : BasePayload) (text : String) (replyId threadId : Option String)
      (isMentioned : Bool) (mentions : List Mention)
  | slashCommand (base : BasePayload) (command : String) (args : List String)
      (mentions : List Mention) (replyId threadId : Option String)
  | reaction (base : BasePayload) (reaction : String) (targetEventId : String)
  | edit (base : BasePayload) (targetEventId : String) (text : String)
      (replyId threadId : Option String) (isMentioned : Bool) (mentions : List Mention)
  | redaction (base : BasePayload) (targetEventId : String)
  | tip (base : BasePayload) (targetEventId : String) (content : TipContent)
  | membershipChange (base : BasePayload) (kind : MembershipKind)
  | rawStreamEvent (base : BasePayload) (rawPayload : String)
deriving DecidableEq

/-- Modelled from the spec: the decoded, decrypted envelope consumed by the
core (spec section 6: "a mapping with a discriminant plus the fields listed
in section 3").  The concrete decoder is part of the external
`@towns-protocol/bot` package, absent from `src/`.  A command-shaped envelope
carries its command discriminant in the `command` field. -/
structure Decoded where
  userId : String
  spaceId : String
  channelId : String
  eventId : String
  createdAt : Nat
  discriminant : String
  command : Option String
  args : List String
  text : Option String
  refEventId : Option String
  reaction : Option String
  replyId : Option String
  threadId : Option String
  isMentioned : Bool
  mentions : List Mention
  tipContent : Option TipContent
  rawPayload : String
deriving DecidableEq

/-- Base payload carried by a decoded envelope. -/
def Decoded.base (d : Decoded) : BasePayload :=
  ⟨d.userId, d.spaceId, d.channelId, d.eventId, d.createdAt⟩

/-- Result of classification: an Event to dispatch, or a decision to drop
the envelope (spec section 4.1). -/
inductive Classified where
  | dropped : Classified
  | event : Event → Classified
deriving DecidableEq

/-- Modelled from the spec: does a non-command envelope parse as one of the
documented event shapes of spec section 3 — a recognized discriminant with
that variant's required fields present.  Envelopes failing this test, whether
through an unrecognized discriminant or an unparseable shape (a recognized
discriminant with a required field missing), must classify as
`rawStreamEvent` (spec sections 4.1 and 7). -/
def shapeParses (d : Decoded) : Bool :=
  if d.discriminant = "message" then d.text.isSome
  else if d.discriminant = "reaction" then d.reaction.isSome && d.refEventId.isSome
  else if d.discriminant = "edit" then d.text.isSome && d.refEventId.isSome
  else if d.discriminant = "redaction" then d.refEventId.isSome
  else if d.discriminant = "tip" then d.refEventId.isSome && d.tipContent.isSome
  else if d.discriminant = "membershipJoin" then true
  else if d.discriminant = "membershipLeave" then true
  else false

/-- Modelled from the spec: shape classification of a non-self envelope
(spec sections 4.1 and 7; the classifier implementation is not under
`src/`).  The command discriminant is checked first (exclusivity rule,
source lines 108-111: a slash command never triggers the message handler);
envelopes whose discriminant is unrecognized, or whose required fields are
missing, classify as `rawStreamEvent` rather than failing. -/
def classifyShape (d : Decoded) : Event :=
  match d.command with
  | some c => .slashCommand d.base c d.args d.mentions d.replyId d.threadId
  | none =>
    if d.discriminant = "message" then
      match d.text with
      | some t => .message d.base t d.replyId d.threadId d.isMentioned d.mentions
      | none => .rawStreamEvent d.base d.rawPayload
    else if d.discriminant = "reaction" then
      match d.reaction, d.refEventId with
      | some rx, some tgt => .reaction d.base rx tgt
      | _, _ => .rawStreamEvent d.base d.rawPayload
    else if d.discriminant = "edit" then
      match d.text, d.refEventId with
      | some t, some tgt => .edit d.base tgt t d.replyId d.threadId d.isMentioned d.mentions
      | _, _ => .rawStreamEvent d.base d.rawPayload
    else if d.discriminant = "redaction" then
      match d.refEventId with
      | some tgt => .redaction d.base tgt
      | none => .rawStreamEvent d.base d.rawPayload
    else if d.discriminant = "tip" then
      match d.refEventId, d.tipContent with
      | some tgt, some tc => .tip d.base tgt tc
      | _, _ => .rawStreamEvent d.base d.rawPayload
    else if d.discriminant = "membershipJoin" then
      .membershipChange d.base .join
    else if d.discriminant = "membershipLeave" then
      .membershipChange d.base .leave
    else
      .rawStreamEvent d.base d.rawPayload

/-- Modelled from the spec: `classify(decoded, botIdentity)` (spec section
4.1; the router implementation is not under `src/`).  The self-filter rule is
applied first: events authored by the bot itself are dropped (README line 23
"Basic user filtering (ignoring bot's own messages)"); otherwise the envelope
is classified by shape. -/
def classify (d : Decoded) (bot : String) : Classified :=
  if d.userId = bot then .dropped else .event (classifyShape d)

/-- Boolean test: did classification produce a `message` variant. -/
def Classified.isMsg : Classified → Bool
  | .event (.message ..) => true
  | _ => false

/-- Boolean test: did classification produce a `slashCommand` variant. -/
def Classified.isSlash : Classified → Bool
  | .event (.slashCommand ..) => true
  | _ => false

/-- Helper building a decoded envelope with fixed routing-irrelevant fields. -/
def mkDecoded (uid disc : String) (cmd txt : Option String) (raw : String) : Decoded :=
  ⟨uid, "space1", "chan1", "ev1", 0, disc, cmd, [], txt, none, none, none, none,
    false, [], none, raw⟩

/-- A command-shaped envelope authored by the bot identity itself. -/
def cmdFromBot : Decoded := mkDecoded "0xbot" "message" (some "help") none "blob1"

/-- A command-shaped envelope authored by a regular user. -/
def cmdFromAlice : Decoded := mkDecoded "0xalice" "message" (some "help") none "blob2"

/-- A plain message envelope authored by a regular user. -/
def msgFromAlice : Decoded := mkDecoded "0xalice" "message" none (some "ping") "blob3"

/-- An envelope with an unrecognized discriminant. -/
def unknownFromAlice : Decoded := mkDecoded "0xalice" "mystery" none none "blob4"

/-- A plain message envelope authored by the bot identity. -/
def msgFromBot : Decoded := mkDecoded "0xbot" "message" none (some "hi") "blob5"

/-- An envelope with the recognized "message" discriminant but an unparseable
shape: its required text field is missing. -/
def malformedFromAlice : Decoded := mkDecoded "0xalice" "message" none none "blob6"

/-- C2: for every decoded envelope whose userId equals the bot identity,
classify returns Dropped — the bot never dispatches events it authored. -/
theorem c2_self_filter (d : Decoded) (bot : String) (h : d.userId = bot) :
    classify d bot = Classified.dropped := by
  simp [classify, h]

/-- Witness for C2: the bot-authored message envelope is dropped. -/
theorem c2_self_filter_witness :
    classify msgFromBot "0xbot" = Classified.dropped :=
  c2_self_filter msgFromBot "0xbot" rfl

/-- C1 counterexample: a command-shaped envelope authored by the bot identity
classifies as Dropped (self-filter precedes the exclusivity rule), so
classify does not return a SlashCommand variant for it. -/
theorem c1_counterexample :
    cmdFromBot.command.isSome = true ∧
    Classified.isSlash (classify cmdFromBot "0xbot") = false := by
  constructor
  · rfl
  · rfl

/-- C1 (amended): for every envelope carrying a command discriminant,
classify never returns a Message variant; and whenever the envelope is not
self-authored, classify returns a SlashCommand variant. -/
theorem c1_command_exclusivity (d : Decoded) (bot : String)
    (h : d.command.isSome = true) :
    Classified.isMsg (classify d bot) = false ∧
    (d.userId ≠ bot → Classified.isSlash (classify d bot) = true) := by
  obtain ⟨c, hc⟩ := Option.isSome_iff_exists.mp h
  by_cases hu : d.userId = bot
  · refine ⟨by simp [classify, hu, Classified.isMsg], fun hne => absurd hu hne⟩
  · refine ⟨?_, fun _ => ?_⟩
    · simp [classify, hu, classifyShape, hc, Classified.isMsg]
    · simp [classify, hu, classifyShape, hc, Classified.isSlash]

/-- Witness for C1's amended theorem: a user-authored command envelope
classifies as a SlashCommand and not as a Message. -/
theorem c1_command_exclusivity_witness :
    Classified.isMsg (classify cmdFromAlice "0xbot") = false ∧
    Classified.isSlash (classify cmdFromAlice "0xbot") = true := by
  have h := c1_command_exclusivity cmdFromAlice "0xbot" rfl
  exact ⟨h.1, h.2 (by decide)⟩

/-- Shape classification of a command-free envelope that fails the shape
test — whether through an unrecognized discriminant or a recognized
discriminant with a required field missing — yields the RawStreamEvent
catch-all. -/
theorem classifyShape_raw_of_shape_fail (d : Decoded) (hcmd : d.command = none)
    (hshape : shapeParses d = false) :
    classifyShape d = Event.rawStreamEvent d.base d.rawPayload := by
  rw [classifyShape, hcmd]
  rw [shapeParses] at hshape
  split_ifs with h1 h2 h3 h4 h5 h6 h7
  · rcases ht : d.text with _ | t <;> simp_all
  · rcases hr : d.reaction with _ | rx <;> rcases hf : d.refEventId with _ | tgt <;> simp_all
  · rcases ht : d.text with _ | t <;> rcases hf : d.refEventId with _ | tgt <;> simp_all
  · rcases hf : d.refEventId with _ | tgt <;> simp_all
  · rcases hf : d.refEventId with _ | tgt <;> rcases hc : d.tipContent with _ | tc <;> simp_all
  · simp_all
  · simp_all
  · rfl

/-- C6: classification is total — every envelope classifies to Dropped or to
some Event, never failing; and a non-self envelope with no command
discriminant whose shape does not parse as a documented event shape — an
unrecognized discriminant, or a recognized discriminant with a required
field missing — classifies as RawStreamEvent. -/
theorem c6_total_classification (d : Decoded) (bot : String) :
    (classify d bot = Classified.dropped ∨ ∃ e, classify d bot = Classified.event e) ∧
    (d.userId ≠ bot → d.command = none → shapeParses d = false →
      classify d bot = Classified.event (Event.rawStreamEvent d.base d.rawPayload)) := by
  constructor
  · by_cases hu : d.userId = bot
    · exact Or.inl (by simp [classify, hu])
    · exact Or.inr ⟨classifyShape d, by simp [classify, hu]⟩
  · intro hu hcmd hshape
    rw [classify, if_neg hu, classifyShape_raw_of_shape_fail d hcmd hshape]

/-- Witness for C6: both the envelope with the unrecognized discriminant
"mystery" and the unparseable "message" envelope with its text field missing
classify to a RawStreamEvent carrying their opaque payloads. -/
theorem c6_total_classification_witness :
    classify unknownFromAlice "0xbot" =
      Classified.event (Event.rawStreamEvent unknownFromAlice.base unknownFromAlice.rawPayload) ∧
    classify malformedFromAlice "0xbot" =
      Classified.event (Event.rawStreamEvent malformedFromAlice.base malformedFromAlice.rawPayload) :=
  ⟨(c6_total_classification unknownFromAlice "0xbot").2 (by decide) rfl (by decide),
   (c6_total_classification malformedFromAlice "0xbot").2 (by decide) rfl (by decide)⟩

/-- Outcome of a single handler invocation: success with the list of outbound
actions it performed, or a failure (a raised error / rejected promise). -/
inductive HandlerOutcome where
  | ok (actions : List String) : HandlerOutcome
  | fail (err : String) : HandlerOutcome
deriving DecidableEq

/-- Event category, used as the registry key (spec sections 3 and 4.2). -/
inductive Category where
  | message : Category
  | slashCommand : Category
  | reaction : Category
  | edit : Category
  | redaction : Category
  | tip : Category
  | membershipChange : Category
  | rawStreamEvent : Category
deriving DecidableEq

/-- Category of a classified event. -/
def Event.category : Event → Category
  | .message .. => .message
  | .slashCommand .. => .slashCommand
  | .reaction .. => .reaction
  | .edit .. => .edit
  | .redaction .. => .redaction
  | .tip .. => .tip
  | .membershipChange .. => .membershipChange
  | .rawStreamEvent .. => .rawStreamEvent

/-- A handler: a user-supplied callback from the event to an outcome. -/
def Handler := Event → HandlerOutcome

/-- Modelled from the spec: the handler registry — an ordered collection of
`(category, callback)` registrations (spec sections 3 and 4.2; the registry
implementation is not under `src/`). -/
structure Registry where
  regs : List (Category × Handler)

/-- The empty registry. -/
def Registry.empty : Registry := ⟨[]⟩

/-- Modelled from the spec: `register(category, handler)` appends a
registration; registrations are append-only (spec section 3). -/
def register (r : Registry) (c : Category) (h : Handler) : Registry :=
  ⟨r.regs ++ [(c, h)]⟩

/-- Register a whole setup-phase sequence of `(category, handler)` pairs. -/
def registerAll (pairs : List (Category × Handler)) : Registry :=
  pairs.foldl (fun r p => register r p.1 p.2) Registry.empty

/-- Modelled from the spec: `handlersFor(category)` — the handlers registered
for a category, in registration order (spec section 4.2). -/
def handlersFor (r : Registry) (c : Category) : List Handler :=
  (r.regs.filter (fun p => decide (p.1 = c))).map Prod.snd

/-- Result of dispatching one event (spec section 4.3). -/
structure DispatchResult where
  invoked : Nat
  failures : List (Nat × String)
deriving DecidableEq

/-- Invoke every handler in the list on the event, collecting each outcome. -/
def runHandlers (hs : List Handler) (e : Event) : List HandlerOutcome :=
  hs.map (fun h => h e)

/-- Collect the `(index, error)` pairs of the failing outcomes, indices
starting at `i`. -/
def collectFailuresFrom : Nat → List HandlerOutcome → List (Nat × String)
  | _, [] => []
  | i, .ok _ :: rest => collectFailuresFrom (i + 1) rest
  | i, .fail err :: rest => (i, err) :: collectFailuresFrom (i + 1) rest

/-- Modelled from the spec: `dispatch(event)` fetches the handlers for the
event's category, invokes every one of them, and reports the count of
invocations together with the collected failures (spec section 4.3; source
line 1521 "Multiple handlers allowed: All registered handlers for an event
will fire"). -/
def dispatch (r : Registry) (e : Event) : DispatchResult :=
  let outs := runHandlers (handlersFor r e.category) e
  ⟨outs.length, collectFailuresFrom 0 outs⟩

theorem mem_collectFailuresFrom (outs : List HandlerOutcome) :
    ∀ (i j : Nat) (err : String),
      (j, err) ∈ collectFailuresFrom i outs ↔
        ∃ k, j = i + k ∧ outs.get? k = some (HandlerOutcome.fail err) := by
  induction outs with
  | nil => intro i j err; simp [collectFailuresFrom]
  | cons o rest ih =>
    intro i j err
    cases o with
    | ok acts =>
      rw [collectFailuresFrom, ih]
      constructor
      · rintro ⟨k, hk, hg⟩
        exact ⟨k + 1, by omega, by simpa using hg⟩
      · rintro ⟨k, hk, hg⟩
        cases k with
        | zero => simp at hg
        | succ k => exact ⟨k, by omega, by simpa using hg⟩
    | fail err₂ =>
      rw [collectFailuresFrom]
      simp only [List.mem_cons, ih]
      constructor
      · rintro (heq | ⟨k, hk, hg⟩)
        · obtain ⟨hj, he⟩ := Prod.mk.injEq .. ▸ heq
          exact ⟨0, by omega, by simp [hj, he]⟩
        · exact ⟨k + 1, by omega, by simpa using hg⟩
      · rintro ⟨k, hk, hg⟩
        cases k with
        | zero =>
          simp only [List.get?_cons_zero, Option.some.injEq, HandlerOutcome.fail.injEq] at hg
          exact Or.inl (by simp [hk, hg])
        | succ k => exact Or.inr ⟨k, by omega, by simpa using hg⟩

/-- C3: dispatch invokes exactly as many handler calls as there are
registered handlers for the event's category and reports that count as
`invoked`; a category with zero handlers dispatches as a no-op with
`invoked = 0` and no failures, not an error. -/
theorem c3_dispatch_count (r : Registry) (e : Event) :
    (dispatch r e).invoked = (handlersFor r e.category).length ∧
    (runHandlers (handlersFor r e.category) e).length = (handlersFor r e.category).length ∧
    (handlersFor r e.category = [] → dispatch r e = ⟨0, []⟩) := by
  refine ⟨by simp [dispatch, runHandlers], by simp [runHandlers], fun h => ?_⟩
  simp [dispatch, runHandlers, h, collectFailuresFrom]

/-- A concrete base payload for witness events. -/
def aliceBase : BasePayload := ⟨"0xalice", "space1", "chan1", "ev1", 0⟩

/-- A concrete message event used by dispatch witnesses. -/
def pingEvent : Event := Event.message aliceBase "ping" none none false []

/-- Witness for C3: dispatching to the empty registry invokes zero handlers
and reports no failures. -/
theorem c3_dispatch_count_witness :
    dispatch Registry.empty pingEvent = ⟨0, []⟩ :=
  (c3_dispatch_count Registry.empty pingEvent).2.2 rfl

/-- C4: `DispatchResult.failures` contains exactly the indices of the failing
handlers, each paired with its error; and every registered handler is
invoked, its outcome being exactly what that handler alone returns on the
event — a failing handler cannot change a sibling's result. -/
theorem c4_failure_isolation (r : Registry) (e : Event) (i : Nat) (err : String) :
    ((i, err) ∈ (dispatch r e).failures ↔
      ∃ h, (handlersFor r e.category).get? i = some h ∧ h e = HandlerOutcome.fail err) ∧
    (∀ j hj, (handlersFor r e.category).get? j = some hj →
      (runHandlers (handlersFor r e.category) e).get? j = some (hj e)) := by
  constructor
  · rw [show (dispatch r e).failures =
        collectFailuresFrom 0 (runHandlers (handlersFor r e.category) e) from rfl,
      mem_collectFailuresFrom]
    constructor
    · rintro ⟨k, hk, hg⟩
      rw [runHandlers, List.get?_map] at hg
      obtain ⟨h, hh, hfe⟩ := Option.map_eq_some'.mp hg
      exact ⟨h, by simpa [hk] using hh, hfe⟩
    · rintro ⟨h, hh, hfe⟩
      refine ⟨i, by omega, ?_⟩
      rw [runHandlers, List.get?_map, hh, Option.map_some', hfe]
  · intro j hj hget
    rw [runHandlers, List.get?_map, hget, Option.map_some']

/-- A witness handler that always fails. -/
def failingHandler : Handler := fun _ => HandlerOutcome.fail "boom"

/-- A witness handler that sends one message back. -/
def pongHandler : Handler := fun _ => HandlerOutcome.ok ["sendMessage pong"]

/-- A registry with two handlers registered for the message category. -/
def twoHandlerReg : Registry :=
  register (register Registry.empty Category.message failingHandler) Category.message pongHandler

/-- Witness for C4: with two message handlers of which the first throws, the
failure of handler 0 is reported and handler 1's outcome (its `sendMessage`)
is still observed unchanged. -/
theorem c4_failure_isolation_witness :
    (0, "boom") ∈ (dispatch twoHandlerReg pingEvent).failures ∧
    (runHandlers (handlersFor twoHandlerReg pingEvent.category) pingEvent).get? 1 =
      some (HandlerOutcome.ok ["sendMessage pong"]) := by
  have h := c4_failure_isolation twoHandlerReg pingEvent 0 "boom"
  exact ⟨h.1.mpr ⟨failingHandler, rfl, rfl⟩, h.2 1 pongHandler rfl⟩

/-- Folding registrations over a starting registry appends the pairs. -/
theorem registerAll_go (pairs : List (Category × Handler)) :
    ∀ r₀ : Registry,
      (pairs.foldl (fun r p => register r p.1 p.2) r₀).regs = r₀.regs ++ pairs := by
  induction pairs with
  | nil => intro r₀; simp
  | cons p rest ih =>
    intro r₀
    rw [List.foldl_cons, ih]
    simp [register]

/-- C9: the registry is append-only and ordered — after any setup-phase
sequence of `register` calls, `handlersFor` returns exactly the handlers
registered for that category in registration order, and a further `register`
call only appends, never removing or reordering existing registrations. -/
theorem c9_registry_append_only (pairs : List (Category × Handler)) (c : Category) :
    handlersFor (registerAll pairs) c =
      (pairs.filter (fun p => decide (p.1 = c))).map Prod.snd ∧
    ∀ (r : Registry) (c' : Category) (h : Handler),
      handlersFor (register r c' h) c =
        handlersFor r c ++ (if c' = c then [h] else []) := by
  constructor
  · rw [handlersFor, registerAll, registerAll_go]
    simp [Registry.empty]
  · intro r c' h
    rw [handlersFor, register]
    by_cases hcc : c' = c
    · simp [handlersFor, hcc]
    · simp [handlersFor, hcc]

/-- Boolean test at the Event level: is this a message variant. -/
def Event.isMsgEv : Event → Bool
  | .message .. => true
  | _ => false

/-- Boolean test at the Event level: is this a slashCommand variant. -/
def Event.isSlashEv : Event → Bool
  | .slashCommand .. => true
  | _ => false

/-- Boolean test at the Event level: is this a rawStreamEvent variant. -/
def Event.isRawEv : Event → Bool
  | .rawStreamEvent .. => true
  | _ => false

/-- Modelled from the spec and the source handler reference: the list of
event deliveries produced for one incoming record.  The classified event is
delivered to its own category, and — per source lines 342-351, `onStreamEvent`
fires for ANY stream event — every non-dropped record is additionally
delivered to the raw-stream category; self-authored records are dropped
entirely (README line 23). -/
def deliveries (d : Decoded) (bot : String) : List Event :=
  match classify d bot with
  | .dropped => []
  | .event e =>
    if e.isRawEv then [e] else [e, .rawStreamEvent d.base d.rawPayload]

/-- C5 counterexample: the plain message record from a regular user is
delivered under two different event categories — as a Message and,
additionally, as a RawStreamEvent (the raw stream handler fires for any
stream event) — refuting "no record is ever delivered to handlers under two
different event categories". -/
theorem c5_counterexample :
    (deliveries msgFromAlice "0xbot").map Event.category =
      [Category.message, Category.rawStreamEvent] ∧
    Category.message ≠ Category.rawStreamEvent := by
  constructor
  · rfl
  · decide

/-- C5 (amended): classification yields exactly one primary Event variant per
record — at most one delivery is non-raw, and in particular Message and
SlashCommand remain mutually exclusive — but a record delivered as Message or
SlashCommand is additionally delivered to the raw-stream category, so a
record produces at most two deliveries. -/
theorem c5_primary_uniqueness (d : Decoded) (bot : String) :
    ((deliveries d bot).filter (fun e => e.isMsgEv || e.isSlashEv)).length ≤ 1 ∧
    ((deliveries d bot).filter (fun e => !e.isRawEv)).length ≤ 1 ∧
    (deliveries d bot).length ≤ 2 := by
  rcases hcl : classify d bot with _ | e
  · simp [deliveries, hcl]
  · cases e <;>
      simp [deliveries, hcl, Event.isRawEv, Event.isMsgEv, Event.isSlashEv]

/-- Permissions relevant to the outbound action contract (source lines
739-750). -/
inductive Permission where
  | read : Permission
  | write : Permission
  | redact : Permission
  | modifyBanning : Permission
deriving DecidableEq

/-- Typed errors of the outbound action contract (spec section 7). -/
inductive ActionError where
  | actionRejected (reason : String) : ActionError
  | transportUnavailable : ActionError
deriving DecidableEq

/-- Modelled from the spec: the external collaborator state the ActionClient
contract is evaluated against — the acting identity, the ledger's view of
which identity authored each event, and the externally verified permission
grants (spec section 4.4; the transport-backed client is not under `src/`). -/
structure ActionEnv where
  actingIdentity : String
  authors : List (String × String)
  grants : List (String × String × Permission)
deriving DecidableEq

/-- Author of an event according to the ledger view. -/
def authorOf (env : ActionEnv) (eventId : String) : Option String :=
  (env.authors.find? (fun p => decide (p.1 = eventId))).map Prod.snd

/-- Modelled from the spec: `checkPermission(channelId, userId, permission)`
consults the externally verified grants (spec section 4.4). -/
def checkPermission (env : ActionEnv) (channelId userId : String)
    (perm : Permission) : Bool :=
  decide ((channelId, userId, perm) ∈ env.grants)

/-- Modelled from the spec: `removeEvent(channelId, eventId)` is scoped to
events the acting identity authored (spec section 4.4; source lines 727-731
"removeEvent only works for messages sent by the bot itself"); any other
target yields a typed `ActionRejected` error, never a silent no-op. -/
def removeEvent (env : ActionEnv) (_channelId eventId : String) :
    Except ActionError Unit :=
  match authorOf env eventId with
  | some a =>
    if a = env.actingIdentity then Except.ok ()
    else Except.error (ActionError.actionRejected "not the author of the target event")
  | none => Except.error (ActionError.actionRejected "unknown target event")

/-- Modelled from the spec: `adminRemoveEvent(channelId, eventId)` requires
an externally verified `Permission.Redact` grant for the acting identity
(spec section 4.4; source lines 727-731); callers lacking the grant receive a
typed `ActionRejected` error. -/
def adminRemoveEvent (env : ActionEnv) (channelId _eventId : String) :
    Except ActionError Unit :=
  if checkPermission env channelId env.actingIdentity Permission.redact then Except.ok ()
  else Except.error (ActionError.actionRejected "missing Permission.Redact")

/-- C7: removing an event authored by a different identity than the caller
fails with a typed ActionRejected error (never a silent no-op success);
adminRemoveEvent succeeds exactly when the caller holds an externally
verified Permission.Redact grant, and otherwise fails with a typed
ActionRejected error. -/
theorem c7_removal_permissions (env : ActionEnv) (ch ev a : String)
    (hauth : authorOf env ev = some a) (hne : a ≠ env.actingIdentity) :
    (∃ reason, removeEvent env ch ev = Except.error (ActionError.actionRejected reason)) ∧
    (checkPermission env ch env.actingIdentity Permission.redact = true →
      adminRemoveEvent env ch ev = Except.ok ()) ∧
    (checkPermission env ch env.actingIdentity Permission.redact = false →
      ∃ reason, adminRemoveEvent env ch ev = Except.error (ActionError.actionRejected reason)) := by
  refine ⟨⟨"not the author of the target event", ?_⟩, fun hg => ?_, fun hg => ?_⟩
  · rw [removeEvent, hauth]
    simp [hne]
  · simp [adminRemoveEvent, hg]
  · exact ⟨"missing Permission.Redact", by simp [adminRemoveEvent, hg]⟩

/-- A concrete action environment: the bot acts, the target event was
authored by a different user, and the bot holds the Redact grant. -/
def grantedEnv : ActionEnv :=
  ⟨"0xbot", [("ev1", "0xalice")], [("chan1", "0xbot", Permission.redact)]⟩

/-- Witness for C7: in the concrete environment, removeEvent on the
foreign-authored event is rejected with a typed error while adminRemoveEvent
under the verified Redact grant succeeds. -/
theorem c7_removal_permissions_witness :
    (∃ reason, removeEvent grantedEnv "chan1" "ev1" =
      Except.error (ActionError.actionRejected reason)) ∧
    adminRemoveEvent grantedEnv "chan1" "ev1" = Except.ok () := by
  have h := c7_removal_permissions grantedEnv "chan1" "ev1" "0xalice" rfl (by decide)
  exact ⟨h.1, h.2.1 (by decide)⟩

/-- Does the needle match the front of the haystack, character by character. -/
def charsMatchAt : List Char → List Char → Bool
  | [], _ => true
  | _ :: _, [] => false
  | a :: as, b :: bs => a == b && charsMatchAt as bs

/-- Does the needle occur as a contiguous run anywhere in the haystack. -/
def charsContain (needle : List Char) : List Char → Bool
  | [] => needle.isEmpty
  | b :: bs => charsMatchAt needle (b :: bs) || charsContain needle bs

/-- Substring containment on strings, via their character lists (mirrors
JavaScript `String.prototype.includes` as used in source lines 1169-1172). -/
def strHasSub (hay needle : String) : Bool :=
  charsContain needle.toList hay.toList

/-- Lowercasing of a string, character by character (mirrors JavaScript
`String.prototype.toLowerCase` as used in source lines 1169-1172). -/
def strLower (s : String) : String :=
  String.mk (s.data.map Char.toLower)

/-- Modelled from the spec and source lines 1169-1172: scan a fixed keyword
table for the first entry whose keyword is contained in the lowered message
text (`event.message.toLowerCase().includes(word)`), first match in table
order winning. -/
def keywordScan (table : List (String × String)) (text : String) :
    Option (String × String) :=
  table.find? (fun kv => strHasSub (strLower text) kv.1)

/-- Modelled from the spec (section 4.5): the canonical keyword handler — on
the first matching keyword it performs exactly one outbound action and
evaluates no further keywords; with no match it performs no action.  The
quickstart handler implementing this lives in `src/index.ts`, which is not
under `src/`; the README (lines 9-14, 39-46) records its keyword table. -/
def keywordActions (table : List (String × String)) (text : String) : List String :=
  match keywordScan table text with
  | some kv => [kv.2]
  | none => []

/-- C8: the keyword matcher is case-insensitive — two texts with the same
lowering trigger the same handler branch — and first-match-wins within the
handler: if the first keyword of the table matches the lowered text the
handler performs exactly that keyword's single action, evaluating no further
keywords; if it does not match, the scan continues with the rest of the
table; in every case at most one outbound action is performed. -/
theorem c8_keyword_matcher (kv : String × String) (rest : List (String × String))
    (s t : String) (hcase : strLower s = strLower t) :
    keywordActions (kv :: rest) s = keywordActions (kv :: rest) t ∧
    (strHasSub (strLower s) kv.1 = true → keywordActions (kv :: rest) s = [kv.2]) ∧
    (strHasSub (strLower s) kv.1 = false →
      keywordActions (kv :: rest) s = keywordActions rest s) ∧
    (keywordActions (kv :: rest) s).length ≤ 1 := by
  refine ⟨?_, fun hm => ?_, fun hm => ?_, ?_⟩
  · simp only [keywordActions, keywordScan, hcase]
  · simp [keywordActions, keywordScan, List.find?_cons, hm]
  · simp [keywordActions, keywordScan, List.find?_cons, hm]
  · rw [keywordActions]
    rcases keywordScan (kv :: rest) s with _ | kv₂ <;> simp

/-- The quickstart bot's keyword table, from README lines 9-14 and 39-46,
each keyword paired with the single outbound action it triggers. -/
def quickstartTable : List (String × String) :=
  [("hello", "sendMessage greeting"),
   ("help", "sendMessage commands"),
   ("ping", "sendMessage Pong!"),
   ("time", "sendMessage current time"),
   ("react", "sendReaction thumbsup")]

/-- Witness for C8: "HELLO there" and "hello there" trigger the same branch
of the quickstart table, namely the single greeting action. -/
theorem c8_keyword_matcher_witness :
    keywordActions quickstartTable "HELLO there" =
      keywordActions quickstartTable "hello there" ∧
    keywordActions quickstartTable "HELLO there" = ["sendMessage greeting"] := by
  have h := c8_keyword_matcher ("hello", "sendMessage greeting")
    (quickstartTable.drop 1) "HELLO there" "hello there" (by decide)
  exact ⟨h.1, h.2.1 (by decide)⟩

/-- One advertised slash command: a name and a description. -/
structure CommandDef where
  name : String
  description : String
deriving DecidableEq

/-- The static slash-command list advertised to the protocol, transcribed
from `commands.ts` (src/README.md lines 59-72). -/
def commands : List CommandDef :=
  [⟨"help", "Get help with bot commands"⟩,
   ⟨"time", "Get the current time"⟩]

/-- C10: the advertised slash-command list contains exactly two entries, in
order a command named "help" and a command named "time", each with a
non-empty description. -/
theorem c10_command_list :
    commands.length = 2 ∧
    commands.map CommandDef.name = ["help", "time"] ∧
    commands.all (fun c => !c.description.isEmpty) = true := by
  refine ⟨rfl, rfl, rfl⟩
